import Mathlib

/-!
Verification of the dataset-construction pipeline in src/build_dataset.py
of the ics_paper_2 repository.

The pandas tables are embedded shallowly: a table is a list of rows, a row
is a structure whose fields are the columns a claim needs, missing values
(NaN, pd.NA) are Option, pandas string methods are modelled as structural
functions on List Char, and operations that can raise (assert, astype)
return Except.  Left merges follow the pandas semantics: for every left row,
one output row per matching right row, or a single null-filled row when no
right row matches.
-/

/-! ## String helpers (models of the pandas string methods used) -/

/-- Model of pandas Series.str.strip on one cell: drop whitespace from both
ends of the character list. -/
def stripWs (l : List Char) : List Char :=
  ((l.dropWhile Char.isWhitespace).reverse.dropWhile Char.isWhitespace).reverse

/-- Model of Series.str.replace with the regex colon-dot-star and empty
replacement: keep only the characters before the first colon.  (Survey
cells are single-line, so the regex erases everything from the first colon
on.) -/
def dropColonTail (l : List Char) : List Char :=
  l.takeWhile (fun c => c != ':')

/-- Model of Series.str.replace with the regex colon-plus and a single
colon: every maximal run of colons becomes one colon. -/
def collapseColonRuns : List Char → List Char
  | [] => []
  | c :: rest =>
    let tail := collapseColonRuns rest
    if c = ':' then
      match tail with
      | ':' :: _ => tail
      | _ => ':' :: tail
    else c :: tail

/-- Model of Series.str.strip with a colon argument: drop colons from both
ends. -/
def stripEdgeColons (l : List Char) : List Char :=
  ((l.dropWhile (fun c => c == ':')).reverse.dropWhile (fun c => c == ':')).reverse

/-- One cell of a multi-part question, after astype str, after the
full-cell replace of the string nan by the empty string, after str.strip,
and after the colon-tail removal (lines 72 to 74 of build_dataset.py). -/
def cleanMultiCell (s : String) : String :=
  let t := if s = ("nan") then ("") else s
  String.mk (dropColonTail (stripWs t.data))

/-- The multi-part question collapser of build_dataset.py (lines 69 to 76):
starting from the empty string, append each cleaned sub-column followed by
a colon, then collapse colon runs and strip edge colons. -/
def collapseMulti (cells : List String) : String :=
  let joined := cells.foldl (fun acc c => acc ++ cleanMultiCell c ++ (":")) ("")
  String.mk (stripEdgeColons (collapseColonRuns joined.data))

/-- C8: the multi-part question collapser maps the ordered sub-column
values Option A colon foo, empty, nan, Option D colon bar to the single
string Option A colon Option D: label suffixes after the first colon are
discarded, the nan sentinel and empties vanish, colon runs collapse, and
edge colons are stripped. -/
theorem collapseMulti_example :
    collapseMulti [("Option A: foo"), (""), ("nan"), ("Option D: bar")]
      = ("Option A:Option D") := by
  rfl

/-! ## Ranked and Likert collapser (build_dataset.py lines 312 to 321) -/

/-- Literal replace-all of a pattern inside a character list, the model of
Series.str.replace with its default non-regex semantics; driven by a fuel
argument equal to the input length so that the recursion is structural. -/
def replAllAux (pat repl : List Char) : Nat → List Char → List Char
  | 0, l => l
  | _, [] => []
  | fuel + 1, c :: rest =>
    if pat.isPrefixOf (c :: rest) && !pat.isEmpty then
      repl ++ replAllAux pat repl fuel (List.drop pat.length (c :: rest))
    else
      c :: replAllAux pat repl fuel rest

/-- Literal replace-all of pat by repl in l. -/
def replAll (pat repl l : List Char) : List Char :=
  replAllAux pat repl l.length l

/-- Parse a non-empty all-digit character list as a natural number; the
numeric part of the astype Int64 coercion. -/
def parseNatChars : List Char → Option Nat
  | [] => none
  | l => parseNatAux l 0
where
  parseNatAux : List Char → Nat → Option Nat
  | [], acc => some acc
  | c :: rest, acc =>
    if c.isDigit then parseNatAux rest (acc * 10 + (c.toNat - 48)) else none

/-- Parse an optionally negated decimal character list as an integer; the
model of the astype Int64 cast applied to a numeric string cell. -/
def parseIntChars : List Char → Option Int
  | '-' :: rest => (parseNatChars rest).map (fun n => -(n : Int))
  | l => (parseNatChars l).map (fun n => (n : Int))

/-- The three anchor-label substitutions of the ranked and Likert question
family built from Q13 sub-columns (lines 318 to 320). -/
def likertSub (s : String) : String :=
  let t := replAll (("(3) extremely possible").data) (("3").data) s.data
  let t := replAll (("(-3) not at all possible").data) (("-3").data) t
  let t := replAll (("(0) neither").data) (("0").data) t
  String.mk t

/-- The ranked and Likert collapser (lines 312 to 321): back-fill across
the seven pagination sub-columns and take the first, that is, take the
first non-null sub-column; substitute the three anchor labels; coerce to a
nullable integer. -/
def collapseLikert (cells : List (Option String)) : Option Int :=
  match cells.findSome? (fun x => x) with
  | none => none
  | some s => parseIntChars (likertSub s).data

/-- C9: a row of a ranked or Likert item whose first four pagination
sub-columns are null and whose fifth is the top anchor label collapses to
the integer three, whatever the remaining two sub-columns hold. -/
theorem collapseLikert_first_nonnull (x6 x7 : Option String) :
    collapseLikert
      [none, none, none, none, some ("(3) extremely possible"), x6, x7]
      = some 3 := by
  rfl

/-- Closed witness for C9 at concrete values of the two trailing
sub-columns. -/
theorem collapseLikert_first_nonnull_witness :
    collapseLikert
      [none, none, none, none, some ("(3) extremely possible"), none,
        some ("(0) neither")]
      = some 3 :=
  collapseLikert_first_nonnull none (some ("(0) neither"))

/-! ## Subject-area code lookups (build_dataset.py lines 183 to 289) -/

/-- Panel letter of a subject-area code, as the sequence of np.where
overwrites of lines 183 to 217: start from null, then for each code in
order replace the value where the code matches. -/
def q8_panel (u : Int) : Option String :=
  let p : Option String := none
  let p := if u = 1 then some ("A") else p
  let p := if u = 2 then some ("A") else p
  let p := if u = 3 then some ("A") else p
  let p := if u = 4 then some ("A") else p
  let p := if u = 5 then some ("A") else p
  let p := if u = 6 then some ("A") else p
  let p := if u = 7 then some ("B") else p
  let p := if u = 8 then some ("B") else p
  let p := if u = 9 then some ("B") else p
  let p := if u = 10 then some ("B") else p
  let p := if u = 11 then some ("B") else p
  let p := if u = 12 then some ("B") else p
  let p := if u = 13 then some ("C") else p
  let p := if u = 14 then some ("C") else p
  let p := if u = 15 then some ("C") else p
  let p := if u = 16 then some ("C") else p
  let p := if u = 17 then some ("C") else p
  let p := if u = 18 then some ("C") else p
  let p := if u = 19 then some ("C") else p
  let p := if u = 20 then some ("C") else p
  let p := if u = 21 then some ("C") else p
  let p := if u = 22 then some ("C") else p
  let p := if u = 23 then some ("C") else p
  let p := if u = 24 then some ("C") else p
  let p := if u = 25 then some ("D") else p
  let p := if u = 26 then some ("D") else p
  let p := if u = 27 then some ("D") else p
  let p := if u = 28 then some ("D") else p
  let p := if u = 29 then some ("D") else p
  let p := if u = 30 then some ("D") else p
  let p := if u = 31 then some ("D") else p
  let p := if u = 32 then some ("D") else p
  let p := if u = 33 then some ("D") else p
  let p := if u = 34 then some ("D") else p
  p

/-- Broad-domain label of a subject-area code, the np.where chain of lines
218 to 252. -/
def q8_stemshape (u : Int) : Option String :=
  let p : Option String := none
  let p := if u = 1 then some ("STEM") else p
  let p := if u = 2 then some ("STEM") else p
  let p := if u = 3 then some ("STEM") else p
  let p := if u = 4 then some ("SHAPE") else p
  let p := if u = 5 then some ("STEM") else p
  let p := if u = 6 then some ("STEM") else p
  let p := if u = 7 then some ("STEM") else p
  let p := if u = 8 then some ("STEM") else p
  let p := if u = 9 then some ("STEM") else p
  let p := if u = 10 then some ("STEM") else p
  let p := if u = 11 then some ("STEM") else p
  let p := if u = 12 then some ("STEM") else p
  let p := if u = 13 then some ("SHAPE") else p
  let p := if u = 14 then some ("SHAPE") else p
  let p := if u = 15 then some ("SHAPE") else p
  let p := if u = 16 then some ("SHAPE") else p
  let p := if u = 17 then some ("SHAPE") else p
  let p := if u = 18 then some ("SHAPE") else p
  let p := if u = 19 then some ("SHAPE") else p
  let p := if u = 20 then some ("SHAPE") else p
  let p := if u = 21 then some ("SHAPE") else p
  let p := if u = 22 then some ("SHAPE") else p
  let p := if u = 23 then some ("SHAPE") else p
  let p := if u = 24 then some ("SHAPE") else p
  let p := if u = 25 then some ("SHAPE") else p
  let p := if u = 26 then some ("SHAPE") else p
  let p := if u = 27 then some ("SHAPE") else p
  let p := if u = 28 then some ("SHAPE") else p
  let p := if u = 29 then some ("SHAPE") else p
  let p := if u = 30 then some ("SHAPE") else p
  let p := if u = 31 then some ("SHAPE") else p
  let p := if u = 32 then some ("SHAPE") else p
  let p := if u = 33 then some ("SHAPE") else p
  let p := if u = 34 then some ("SHAPE") else p
  p

/-- Binary form of the broad-domain label, the np.where chain of lines 255
to 289: one for STEM codes, zero for SHAPE codes. -/
def q8_stemshape_binary (u : Int) : Option Int :=
  let p : Option Int := none
  let p := if u = 1 then some 1 else p
  let p := if u = 2 then some 1 else p
  let p := if u = 3 then some 1 else p
  let p := if u = 4 then some 0 else p
  let p := if u = 5 then some 1 else p
  let p := if u = 6 then some 1 else p
  let p := if u = 7 then some 1 else p
  let p := if u = 8 then some 1 else p
  let p := if u = 9 then some 1 else p
  let p := if u = 10 then some 1 else p
  let p := if u = 11 then some 1 else p
  let p := if u = 12 then some 1 else p
  let p := if u = 13 then some 0 else p
  let p := if u = 14 then some 0 else p
  let p := if u = 15 then some 0 else p
  let p := if u = 16 then some 0 else p
  let p := if u = 17 then some 0 else p
  let p := if u = 18 then some 0 else p
  let p := if u = 19 then some 0 else p
  let p := if u = 20 then some 0 else p
  let p := if u = 21 then some 0 else p
  let p := if u = 22 then some 0 else p
  let p := if u = 23 then some 0 else p
  let p := if u = 24 then some 0 else p
  let p := if u = 25 then some 0 else p
  let p := if u = 26 then some 0 else p
  let p := if u = 27 then some 0 else p
  let p := if u = 28 then some 0 else p
  let p := if u = 29 then some 0 else p
  let p := if u = 30 then some 0 else p
  let p := if u = 31 then some 0 else p
  let p := if u = 32 then some 0 else p
  let p := if u = 33 then some 0 else p
  let p := if u = 34 then some 0 else p
  p

/-- C5: every subject-area code from one to thirty-four is assigned exactly
one panel letter among A, B, C, D, exactly one domain label among STEM and
SHAPE, and a binary domain flag that is one exactly when the label is STEM
and zero exactly when it is SHAPE; code one maps to panel A and STEM, code
thirty-four to panel D and SHAPE, and code four to panel A and SHAPE. -/
theorem uoa_panel_domain_total (n : Int) (h1 : 1 ≤ n) (h2 : n ≤ 34) :
    q8_panel n ∈ [some ("A"), some ("B"), some ("C"), some ("D")] ∧
    q8_stemshape n ∈ [some ("STEM"), some ("SHAPE")] ∧
    (q8_stemshape_binary n = some 1 ↔ q8_stemshape n = some ("STEM")) ∧
    (q8_stemshape_binary n = some 0 ↔ q8_stemshape n = some ("SHAPE")) ∧
    (q8_panel 1 = some ("A") ∧ q8_stemshape 1 = some ("STEM")) ∧
    (q8_panel 34 = some ("D") ∧ q8_stemshape 34 = some ("SHAPE")) ∧
    (q8_panel 4 = some ("A") ∧ q8_stemshape 4 = some ("SHAPE")) := by
  interval_cases n <;> exact (by decide)

/-- Closed witness for C5 at the boundary code four, where the panel
grouping and the domain grouping diverge. -/
theorem uoa_panel_domain_total_witness :
    q8_panel 4 ∈ [some ("A"), some ("B"), some ("C"), some ("D")] ∧
    q8_stemshape 4 ∈ [some ("STEM"), some ("SHAPE")] ∧
    (q8_stemshape_binary 4 = some 1 ↔ q8_stemshape 4 = some ("STEM")) ∧
    (q8_stemshape_binary 4 = some 0 ↔ q8_stemshape 4 = some ("SHAPE")) ∧
    (q8_panel 1 = some ("A") ∧ q8_stemshape 1 = some ("STEM")) ∧
    (q8_panel 34 = some ("D") ∧ q8_stemshape 34 = some ("SHAPE")) ∧
    (q8_panel 4 = some ("A") ∧ q8_stemshape 4 = some ("SHAPE")) :=
  uoa_panel_domain_total 4 (by decide) (by decide)

/-! ## Career stage (build_dataset.py lines 103 to 107) -/

/-- Years since PhD completion, line 103: the constant 2021 minus the
completion year. -/
def q4_years (q4 : Int) : Int := 2021 - q4

/-- Career-stage bucket, the np.where chain of lines 104 to 107 applied to
a respondent with a non-null completion year. -/
def q4_stage (q4 : Int) : Option String :=
  let years := q4_years q4
  let s : Option String := none
  let s := if years ≤ 10 then some ("Early") else s
  let s := if 10 < years ∧ years ≤ 25 then some ("Middle") else s
  let s := if 25 < years then some ("Senior") else s
  s

/-- C10: for a non-null PhD-completion year, the derived years field equals
2021 minus the year, and the stage bucket is Early exactly when the years
are at most ten, Middle exactly when they are more than ten and at most
twenty-five, and Senior exactly when they are more than twenty-five. -/
theorem q4_stage_buckets (y : Int) :
    q4_years y = 2021 - y ∧
    (q4_stage y = some ("Early") ↔ q4_years y ≤ 10) ∧
    (q4_stage y = some ("Middle") ↔ (10 < q4_years y ∧ q4_years y ≤ 25)) ∧
    (q4_stage y = some ("Senior") ↔ 25 < q4_years y) := by
  refine ⟨rfl, ?_, ?_, ?_⟩ <;>
    · simp only [q4_stage, q4_years]
      split_ifs <;> simp_all <;> omega

/-- Closed witness for C10 at a completion year of 2000, which lies in the
Middle bucket. -/
theorem q4_stage_buckets_witness :
    q4_years 2000 = 2021 - 2000 ∧
    (q4_stage 2000 = some ("Early") ↔ q4_years 2000 ≤ 10) ∧
    (q4_stage 2000 = some ("Middle") ↔ (10 < q4_years 2000 ∧ q4_years 2000 ≤ 25)) ∧
    (q4_stage 2000 = some ("Senior") ↔ 25 < q4_years 2000) :=
  q4_stage_buckets 2000

/-! ## Grade point averages (build_dataset.py lines 449 to 464) -/

/-- The GPA of one profile type from its four score-band percentages
(lines 449 to 452 and the three analogous blocks): four times the four-star
share plus three times the three-star share plus two times the two-star
share plus the one-star share, all over one hundred.  A cell on which the
to-numeric coercion failed is none, and none propagates through the
arithmetic as NaN does in pandas. -/
def gpa_profile (p4 p3 p2 p1 : Option ℚ) : Option ℚ :=
  match p4, p3, p2, p1 with
  | some a, some b, some c, some d => some ((a * 4 + b * 3 + c * 2 + d) / 100)
  | _, _, _, _ => none

/-- C6 counterexample: the score bands twenty, fifty, twenty, ten give the
GPA fourteen fifths, that is 2.8, not the 2.9 stated by the claim. -/
theorem gpa_example_cex :
    gpa_profile (some 20) (some 50) (some 20) (some 10) = some (28 / 10) ∧
    ¬ gpa_profile (some 20) (some 50) (some 20) (some 10) = some (29 / 10) := by
  constructor
  · show some (((20 : ℚ) * 4 + 50 * 3 + 20 * 2 + 10) / 100) = some (28 / 10)
    norm_num
  · intro h
    have h2 : ((20 : ℚ) * 4 + 50 * 3 + 20 * 2 + 10) / 100 = 29 / 10 :=
      Option.some.inj h
    norm_num at h2

/-- C6 as amended: the GPA of a profile equals four times the four-star
share plus three times the three-star share plus two times the two-star
share plus the one-star share, over one hundred; any non-numeric score
cell makes the GPA null rather than entering as zero; and the bands
twenty, fifty, twenty, ten yield 2.8. -/
theorem gpa_profile_spec :
    (∀ a b c d : ℚ,
      gpa_profile (some a) (some b) (some c) (some d)
        = some ((4 * a + 3 * b + 2 * c + d) / 100)) ∧
    (∀ p4 p3 p2 p1 : Option ℚ,
      (p4 = none ∨ p3 = none ∨ p2 = none ∨ p1 = none) →
        gpa_profile p4 p3 p2 p1 = none) ∧
    gpa_profile (some 20) (some 50) (some 20) (some 10) = some (2.8) := by
  refine ⟨?_, ?_, ?_⟩
  · intro a b c d
    show some ((a * 4 + b * 3 + c * 2 + d) / 100) = _
    ring_nf
  · intro p4 p3 p2 p1 h
    cases p4 <;> cases p3 <;> cases p2 <;> cases p1 <;> simp_all [gpa_profile]
  · show some (((20 : ℚ) * 4 + 50 * 3 + 20 * 2 + 10) / 100) = some (2.8)
    norm_num

/-- Closed witness for C6 as amended: the none-propagation conjunct applied
with a null four-star cell. -/
theorem gpa_profile_spec_witness :
    gpa_profile none (some 50) (some 20) (some 10) = none :=
  gpa_profile_spec.2.1 none (some 50) (some 20) (some 10) (Or.inl rfl)

/-! ## Identifier normalizer format_ids (build_dataset.py lines 13 to 36) -/

/-- A row of an evaluation or environment sheet as read, with the
institution id still a raw string (the blank placeholder is a single
space), the unit-of-assessment number, and the optional multiple-submission
letter. -/
structure RawRefRow where
  inst_id : String
  uoaNumber : Int
  msLetter : Option String
deriving DecidableEq, Repr

/-- A row after format_ids: integer institution id and the derived
subject-area code uoa id. -/
structure RefRow where
  inst_id : Int
  uoaNumber : Int
  msLetter : Option String
  uoa_id : String
deriving DecidableEq, Repr

/-- Model of fillna with the empty string on the multiple-submission
letter column. -/
def fillnaStr (o : Option String) : String :=
  match o with
  | some s => s
  | none => ("")

/-- The integer coercion and uoa id construction of format_ids (lines 33
to 35): astype int fails on any remaining non-integer institution id, and
the uoa id is the decimal string of the integer-cast number concatenated
with the filled letter. -/
def coerceRefRows : List RawRefRow → Except String (List RefRow)
  | [] => Except.ok []
  | r :: rest =>
    match parseIntChars r.inst_id.data with
    | none => Except.error ("invalid literal for int")
    | some i =>
      match coerceRefRows rest with
      | Except.error e => Except.error e
      | Except.ok out =>
        Except.ok (⟨i, r.uoaNumber, r.msLetter,
          toString r.uoaNumber ++ fillnaStr r.msLetter⟩ :: out)

/-- format_ids (lines 27 to 36): first drop the rows whose institution id
equals the blank placeholder, then coerce the remaining ids to integer and
build the uoa id column. -/
def format_ids (df : List RawRefRow) : Except String (List RefRow) :=
  coerceRefRows (df.filter (fun r => r.inst_id != (" ")))

/-- Helper: the length of the digit accumulator never shrinks under the
core digit loop of Nat.repr. -/
theorem toDigitsCore_length_le (b : Nat) (fuel : Nat) :
    ∀ (n : Nat) (ds : List Char),
      ds.length ≤ (Nat.toDigitsCore b fuel n ds).length := by
  induction fuel with
  | zero => intro n ds; simp [Nat.toDigitsCore]
  | succ f ih =>
    intro n ds
    rw [Nat.toDigitsCore]
    split
    · simp
    · exact le_trans (by simp) (ih (n / b) ((n % b).digitChar :: ds))

/-- Helper: the decimal string of a natural number is never empty. -/
theorem nat_repr_ne_empty (n : Nat) : Nat.repr n ≠ ("") := by
  intro h
  have hd : (Nat.toDigits 10 n) = [] := by
    have h2 := congrArg String.data h
    simpa [Nat.repr, List.asString] using h2
  have h1 : 1 ≤ (Nat.toDigits 10 n).length := by
    rw [Nat.toDigits, Nat.toDigitsCore]
    split
    · simp
    · exact le_trans (by simp)
        (toDigitsCore_length_le 10 n (n / 10) ((n % 10).digitChar :: []))
  rw [hd] at h1
  simp at h1

/-- Helper: the decimal string of an integer is never empty. -/
theorem int_toString_ne_empty (i : Int) : toString i ≠ ("") := by
  cases i with
  | ofNat m => exact nat_repr_ne_empty m
  | negSucc m =>
    show ("-" ++ Nat.repr (m + 1)) ≠ ("")
    intro h
    have h2 := congrArg String.data h
    simp [String.data_append] at h2

/-- Helper: appending to a non-empty string keeps it non-empty. -/
theorem string_append_left_ne_empty (a b : String) (h : a ≠ ("")) :
    a ++ b ≠ ("") := by
  intro h2
  have h3 := congrArg String.data h2
  rw [String.data_append] at h3
  rcases List.append_eq_nil.mp h3 with ⟨ha, _⟩
  exact h (by cases a; simp_all)

/-- Helper: every row produced by the coercion step carries the uoa id
formula, and its uoa id is non-blank. -/
theorem coerceRefRows_ok_spec (l : List RawRefRow) (out : List RefRow)
    (h : coerceRefRows l = Except.ok out) :
    ∀ r ∈ out,
      r.uoa_id = toString r.uoaNumber ++ fillnaStr r.msLetter ∧
      r.uoa_id ≠ ("") := by
  induction l generalizing out with
  | nil =>
    simp only [coerceRefRows] at h
    cases h
    intro r hr
    simp at hr
  | cons a l ih =>
    simp only [coerceRefRows] at h
    rcases hp : parseIntChars a.inst_id.data with _ | i
    · rw [hp] at h; cases h
    · rw [hp] at h
      rcases hc : coerceRefRows l with e | out'
      · rw [hc] at h; cases h
      · rw [hc] at h
        cases h
        intro r hr
        rcases List.mem_cons.mp hr with h1 | h1
        · subst h1
          exact ⟨rfl,
            string_append_left_ne_empty _ _ (int_toString_ne_empty a.uoaNumber)⟩
        · exact ih out' hc r h1

/-- Helper: the coercion step succeeds exactly when every institution id in
its input parses as an integer. -/
theorem coerceRefRows_ok_iff (l : List RawRefRow) :
    (∃ out, coerceRefRows l = Except.ok out) ↔
      ∀ r ∈ l, (parseIntChars r.inst_id.data).isSome := by
  induction l with
  | nil => simp [coerceRefRows]
  | cons a l ih =>
    simp only [coerceRefRows]
    constructor
    · rintro ⟨out, h⟩
      rcases hp : parseIntChars a.inst_id.data with _ | i
      · rw [hp] at h; cases h
      · rw [hp] at h
        rcases hc : coerceRefRows l with e | out'
        · rw [hc] at h; cases h
        · intro r hr
          rcases List.mem_cons.mp hr with h1 | h1
          · subst h1; simp [hp]
          · exact (ih.mp ⟨out', hc⟩) r h1
    · intro h
      rcases hp : parseIntChars a.inst_id.data with _ | i
      · have := h a (List.mem_cons_self a l)
        rw [hp] at this
        simp at this
      · rcases ih.mpr (fun r hr => h r (List.mem_cons_of_mem a hr)) with ⟨out', hc⟩
        exact ⟨⟨i, a.uoaNumber, a.msLetter,
            toString a.uoaNumber ++ fillnaStr a.msLetter⟩ :: out',
          by simp only [hp, hc]⟩

/-- C7: on every accepted input table, format_ids removes the rows whose
institution id is the blank placeholder before coercing that column to
integer, so that the coercion can only fail on a non-blank id, and every
row of the result carries a uoa id equal to the decimal string of the
integer-cast unit-of-assessment number followed by the filled
multiple-submission letter, never the blank string. -/
theorem format_ids_spec (df : List RawRefRow) :
    (∀ out, format_ids df = Except.ok out →
      ∀ r ∈ out,
        r.uoa_id = toString r.uoaNumber ++ fillnaStr r.msLetter ∧
        r.uoa_id ≠ ("")) ∧
    ((∃ out, format_ids df = Except.ok out) ↔
      ∀ r ∈ df, r.inst_id ≠ (" ") → (parseIntChars r.inst_id.data).isSome) := by
  constructor
  · intro out h
    exact coerceRefRows_ok_spec _ out h
  · rw [format_ids, coerceRefRows_ok_iff]
    constructor
    · intro h r hr hne
      exact h r (List.mem_filter.mpr ⟨hr, by simpa using hne⟩)
    · intro h r hr
      rcases List.mem_filter.mp hr with ⟨h1, h2⟩
      exact h r h1 (by simpa using h2)

/-- Closed witness for C7: a concrete two-row sheet in which the second row
carries the blank institution id placeholder; the blank row is dropped
rather than breaking the integer coercion, and the surviving row gets the
non-blank uoa id built from number four and letter A. -/
theorem format_ids_spec_witness :
    (format_ids [⟨("112"), 4, some ("A")⟩, ⟨(" "), 5, none⟩]
        = Except.ok [⟨112, 4, some ("A"), ("4A")⟩]) ∧
    (∀ r ∈ [(⟨112, 4, some ("A"), ("4A")⟩ : RefRow)],
        r.uoa_id = toString r.uoaNumber ++ fillnaStr r.msLetter ∧
        r.uoa_id ≠ ("")) := by
  constructor
  · rfl
  · exact (format_ids_spec [⟨("112"), 4, some ("A")⟩, ⟨(" "), 5, none⟩]).1
      [⟨112, 4, some ("A"), ("4A")⟩] (by rfl)

/-! ## Left merges (pandas merge with how left) -/

/-- Pandas left merge on computed keys: every left row is paired with each
matching right row in order, and a left row with no match yields one row
whose right side is null. -/
def leftMerge {α β κ : Type} [DecidableEq κ] (kL : α → κ) (kR : β → κ)
    (l : List α) (r : List β) : List (α × Option β) :=
  l.flatMap (fun a =>
    match r.filter (fun b => decide (kR b = kL a)) with
    | [] => [(a, none)]
    | ms => ms.map (fun b => (a, some b)))

/-- Helper: when the right table has pairwise distinct keys, a left merge
returns exactly one row per left row. -/
theorem leftMerge_length_of_unique {α β κ : Type} [DecidableEq κ]
    (kL : α → κ) (kR : β → κ) (l : List α) (r : List β)
    (hr : r.Pairwise (fun b b' => kR b ≠ kR b')) :
    (leftMerge kL kR l r).length = l.length := by
  induction l with
  | nil => rfl
  | cons a l ih =>
    rw [leftMerge, List.flatMap_cons, List.length_append]
    rw [leftMerge] at ih
    rw [ih]
    rcases hf : r.filter (fun b => decide (kR b = kL a)) with _ | ⟨m, ms⟩
    · show (1 : Nat) + l.length = l.length + 1
      omega
    · have hpw : (m :: ms).Pairwise (fun b b' => kR b ≠ kR b') := by
        rw [← hf]; exact hr.filter _
      have hms : ms = [] := by
        rcases ms with _ | ⟨m', ms'⟩
        · rfl
        · exfalso
          have hm : kR m = kL a := by
            have := List.of_mem_filter (l := r) (p := fun b => decide (kR b = kL a))
              (hf ▸ List.mem_cons_self m (m' :: ms'))
            simpa using this
          have hm' : kR m' = kL a := by
            have := List.of_mem_filter (l := r) (p := fun b => decide (kR b = kL a))
              (hf ▸ List.mem_cons_of_mem m (List.mem_cons_self m' ms'))
            simpa using this
          exact (List.pairwise_cons.mp hpw).1 m' (List.mem_cons_self m' ms')
            (hm.trans hm'.symm)
      subst hms
      show ((m :: []).map (fun b => (a, some b))).length + l.length = l.length + 1
      simp [Nat.add_comm]

/-- Helper: a left row with no key match in the right table contributes a
null-filled row to the left merge. -/
theorem leftMerge_mem_unmatched {α β κ : Type} [DecidableEq κ]
    (kL : α → κ) (kR : β → κ) (l : List α) (r : List β) (a : α)
    (ha : a ∈ l) (hnm : ∀ b ∈ r, kR b ≠ kL a) :
    (a, (none : Option β)) ∈ leftMerge kL kR l r := by
  rw [leftMerge, List.mem_flatMap]
  refine ⟨a, ha, ?_⟩
  have hf : r.filter (fun b => decide (kR b = kL a)) = [] :=
    List.filter_eq_nil_iff.mpr (fun b hb => by simpa using hnm b hb)
  rw [hf]
  exact List.mem_singleton.mpr rfl

/-! ## Referential joiner merge_ins_uoa (build_dataset.py lines 39 to 56) -/

/-- A row of a table carrying the two join keys of merge_ins_uoa, an
integer institution id and a string uoa id, plus a payload standing for the
remaining columns. -/
structure KRow (α : Type) where
  inst_id : Int
  uoa_id : String
  payload : α
deriving DecidableEq, Repr

/-- merge_ins_uoa (lines 53 to 56): assert that every institution id of
the left table occurs in the institution id column of the right table,
assert the same for the uoa id column, then left-merge the right table
onto the left on both keys. -/
def merge_ins_uoa {α β : Type} (df1 : List (KRow α)) (df2 : List (KRow β)) :
    Except String (List (KRow α × Option (KRow β))) :=
  if df1.all (fun r => df2.any (fun s => decide (s.inst_id = r.inst_id))) then
    if df1.all (fun r => df2.any (fun s => decide (s.uoa_id = r.uoa_id))) then
      Except.ok (leftMerge (fun r => (r.inst_id, r.uoa_id))
        (fun s => (s.inst_id, s.uoa_id)) df1 df2)
    else Except.error ("AssertionError")
  else Except.error ("AssertionError")

/-- C2 counterexample: a left table whose single pair of keys, institution
one with uoa a, occurs in no row of the right table, while institution one
and uoa a each occur somewhere in their columns; both assertions pass and
the join silently returns a null-filled row for that pair. -/
theorem merge_ins_uoa_pair_cex :
    (∀ s ∈ ([⟨1, ("b"), 0⟩, ⟨2, ("a"), 0⟩] : List (KRow Nat)),
      ¬(s.inst_id = 1 ∧ s.uoa_id = ("a"))) ∧
    merge_ins_uoa ([⟨1, ("a"), 0⟩] : List (KRow Nat))
        ([⟨1, ("b"), 0⟩, ⟨2, ("a"), 0⟩] : List (KRow Nat))
      = Except.ok [(⟨1, ("a"), 0⟩, none)] := by
  exact ⟨by decide, rfl⟩

/-- C2 as amended: the two assertions check each key column separately, so
merge_ins_uoa fails exactly when some institution id of the left table is
absent from the institution id column of the right table or some uoa id of
the left table is absent from the uoa id column; when both column-wise
checks pass, a left row whose key pair occurs in no right row is not
rejected but yields a null-filled joined row. -/
theorem merge_ins_uoa_columnwise_assert {α β : Type}
    (df1 : List (KRow α)) (df2 : List (KRow β)) :
    ((∃ out, merge_ins_uoa df1 df2 = Except.ok out) ↔
      ((∀ r ∈ df1, ∃ s ∈ df2, s.inst_id = r.inst_id) ∧
       (∀ r ∈ df1, ∃ s ∈ df2, s.uoa_id = r.uoa_id))) ∧
    (∀ r ∈ df1, (∀ s ∈ df2, ¬(s.inst_id = r.inst_id ∧ s.uoa_id = r.uoa_id)) →
      ∀ out, merge_ins_uoa df1 df2 = Except.ok out →
        (r, (none : Option (KRow β))) ∈ out) := by
  constructor
  · rw [merge_ins_uoa]
    split
    · split
      · rename_i h1 h2
        simp only [List.all_eq_true, List.any_eq_true, decide_eq_true_eq] at h1 h2
        exact ⟨fun _ => ⟨h1, h2⟩, fun _ => ⟨_, rfl⟩⟩
      · rename_i h2
        simp only [List.all_eq_true, List.any_eq_true, decide_eq_true_eq] at h2
        constructor
        · rintro ⟨out, h⟩; cases h
        · rintro ⟨_, hb⟩; exact absurd hb h2
    · rename_i h1
      simp only [List.all_eq_true, List.any_eq_true, decide_eq_true_eq] at h1
      constructor
      · rintro ⟨out, h⟩; cases h
      · rintro ⟨ha, _⟩; exact absurd ha h1
  · intro r hr hnm out hout
    rw [merge_ins_uoa] at hout
    split at hout
    · split at hout
      · cases hout
        refine leftMerge_mem_unmatched _ _ df1 df2 r hr ?_
        intro s hs he
        have h1 : s.inst_id = r.inst_id := congrArg Prod.fst he
        have h2 : s.uoa_id = r.uoa_id := congrArg Prod.snd he
        exact hnm s hs ⟨h1, h2⟩
      · cases hout
    · cases hout

/-- Closed witness for C2 as amended, at the counterexample tables: the
column-wise characterisation and the null-filled row for the unmatched
pair. -/
theorem merge_ins_uoa_columnwise_assert_witness :
    ((∃ out, merge_ins_uoa ([⟨1, ("a"), 0⟩] : List (KRow Nat))
          ([⟨1, ("b"), 0⟩, ⟨2, ("a"), 0⟩] : List (KRow Nat)) = Except.ok out) ↔
      ((∀ r ∈ ([⟨1, ("a"), 0⟩] : List (KRow Nat)),
          ∃ s ∈ ([⟨1, ("b"), 0⟩, ⟨2, ("a"), 0⟩] : List (KRow Nat)),
            s.inst_id = r.inst_id) ∧
       (∀ r ∈ ([⟨1, ("a"), 0⟩] : List (KRow Nat)),
          ∃ s ∈ ([⟨1, ("b"), 0⟩, ⟨2, ("a"), 0⟩] : List (KRow Nat)),
            s.uoa_id = r.uoa_id))) ∧
    (∀ r ∈ ([⟨1, ("a"), 0⟩] : List (KRow Nat)),
      (∀ s ∈ ([⟨1, ("b"), 0⟩, ⟨2, ("a"), 0⟩] : List (KRow Nat)),
        ¬(s.inst_id = r.inst_id ∧ s.uoa_id = r.uoa_id)) →
      ∀ out, merge_ins_uoa ([⟨1, ("a"), 0⟩] : List (KRow Nat))
          ([⟨1, ("b"), 0⟩, ⟨2, ("a"), 0⟩] : List (KRow Nat)) = Except.ok out →
        (r, (none : Option (KRow Nat))) ∈ out) :=
  merge_ins_uoa_columnwise_assert ([⟨1, ("a"), 0⟩] : List (KRow Nat))
    ([⟨1, ("b"), 0⟩, ⟨2, ("a"), 0⟩] : List (KRow Nat))

/-- C3 counterexample: a right table holding two rows with the same key
pair; both assertions pass, and the left join returns two rows for a
one-row left table. -/
theorem merge_ins_uoa_rowcount_cex :
    merge_ins_uoa ([⟨1, ("1"), 0⟩] : List (KRow Nat))
        ([⟨1, ("1"), 0⟩, ⟨1, ("1"), 1⟩] : List (KRow Nat))
      = Except.ok [(⟨1, ("1"), 0⟩, some ⟨1, ("1"), 0⟩),
                   (⟨1, ("1"), 0⟩, some ⟨1, ("1"), 1⟩)] ∧
    ([⟨1, ("1"), 0⟩] : List (KRow Nat)).length = 1 := by
  exact ⟨rfl, rfl⟩

/-- C3 as amended: when the assertions pass and the right table has at most
one row per key pair, the table returned by merge_ins_uoa has exactly as
many rows as the left input table; a right table with a repeated key pair
can return more rows. -/
theorem merge_ins_uoa_rowcount {α β : Type}
    (df1 : List (KRow α)) (df2 : List (KRow β))
    (out : List (KRow α × Option (KRow β)))
    (hu : df2.Pairwise (fun s s' => (s.inst_id, s.uoa_id) ≠ (s'.inst_id, s'.uoa_id)))
    (hok : merge_ins_uoa df1 df2 = Except.ok out) :
    out.length = df1.length := by
  rw [merge_ins_uoa] at hok
  split at hok
  · split at hok
    · cases hok
      exact leftMerge_length_of_unique _ _ df1 df2 hu
    · cases hok
  · cases hok

/-- Closed witness for C3 as amended, on a right table with two distinct
key pairs. -/
theorem merge_ins_uoa_rowcount_witness :
    ([(⟨1, ("1"), 0⟩, some (⟨1, ("1"), 5⟩ : KRow Nat)),
      (⟨2, ("1"), 0⟩, some ⟨2, ("1"), 6⟩)] :
        List (KRow Nat × Option (KRow Nat))).length
      = ([⟨1, ("1"), 0⟩, ⟨2, ("1"), 0⟩] : List (KRow Nat)).length :=
  merge_ins_uoa_rowcount
    ([⟨1, ("1"), 0⟩, ⟨2, ("1"), 0⟩] : List (KRow Nat))
    ([⟨1, ("1"), 5⟩, ⟨2, ("1"), 6⟩] : List (KRow Nat)) _
    (by decide) (by rfl)

/-! ## Final merge of build_dataset (build_dataset.py lines 467 to 494) -/

/-- A respondent row of the recoded survey table, restricted to the fields
the final merge reads: the collapsed multi-part field Q1, the self-reported
institution Q3, the derived subject-area code Q8 uoa, and the
participant id PIPD. -/
structure CleanRow where
  Q1 : String
  Q3 : Option String
  Q8_uoa : Option Int
  PIPD : Option Int
deriving DecidableEq, Repr

/-- A department-level row of the joined evaluation and environment table,
keyed by institution name and the numeric uoa id obtained on lines 465 and
466 by stripping the multiple-submission letter; one representative joined
column (the impact GPA) stands for the rest. -/
structure DepRow where
  instName : String
  uoa_id : Int
  ICS_GPA : Option ℚ
deriving DecidableEq, Repr

/-- A row of the manual classification lookup, keyed by the participant id
column Q28. -/
structure ClassRow where
  Q28 : Int
  label : String
deriving DecidableEq, Repr

/-- A row of the manual university lookup, keyed by institution name, with
the two binary institution-type flags. -/
structure ManualRow where
  Q3 : String
  is_oxbridge : Int
  is_redbrick : Int
deriving DecidableEq, Repr

/-- A row of the final merged analysis table: the respondent fields, the
three optional joined rows, and the two institution-type flags after the
np.where forcing of lines 493 and 494. -/
structure MergedRow where
  clean : CleanRow
  dep : Option DepRow
  cls : Option ClassRow
  manual : Option ManualRow
  is_oxbridge : Option Int
  is_redbrick : Option Int
deriving DecidableEq, Repr

/-- The final merge of build_dataset (lines 467 to 494): left-merge the
department table on institution name and numeric uoa id, left-merge the
classification lookup on PIPD against Q28, left-merge the university
lookup on Q3, then force the two institution-type flags to zero on the
rows whose Q1 field equals Other, keeping the looked-up value, null when
unmatched, elsewhere. -/
def buildMergedTable (dfc : List CleanRow) (dep : List DepRow)
    (cls : List ClassRow) (man : List ManualRow) : List MergedRow :=
  (leftMerge (fun p => p.1.1.Q3) (fun m => some m.Q3)
      (leftMerge (fun p => p.1.PIPD) (fun k => some k.Q28)
        (leftMerge (fun c => (c.Q3, c.Q8_uoa))
          (fun d => (some d.instName, some d.uoa_id)) dfc dep)
        cls)
      man).map
    (fun p =>
      ⟨p.1.1.1, p.1.1.2, p.1.2, p.2,
        if p.1.1.1.Q1 = ("Other") then some 0
        else Option.map (fun mr => mr.is_oxbridge) p.2,
        if p.1.1.1.Q1 = ("Other") then some 0
        else Option.map (fun mr => mr.is_redbrick) p.2⟩)

/-- C1 counterexample: a department table holding two rows with the same
institution name and the same numeric uoa id, as happens when an
institution made two submissions to one unit of assessment and the
multiple-submission letters were stripped on line 466; the single
respondent matching that key comes out of the final merge twice. -/
theorem merged_table_duplicate_cex :
    ([⟨("Academic"), some ("Uni"), some 4, none⟩] : List CleanRow).length = 1 ∧
    (buildMergedTable [⟨("Academic"), some ("Uni"), some 4, none⟩]
        [⟨("Uni"), 4, some 1⟩, ⟨("Uni"), 4, some 2⟩] [] []).length = 2 := by
  exact ⟨rfl, rfl⟩

/-- C1 as amended: when each of the three joined tables has at most one
row per join key, the final merged table has exactly one row per surviving
respondent; the left joins never drop a respondent, and a respondent who
matches nothing keeps null values in all joined columns, except that the
two institution-type flags are forced to zero when the Q1 field equals
Other.  A joined table with a repeated key, as the numeric uoa id of line
466 allows, duplicates the matching respondent instead. -/
theorem merged_table_one_row_per_respondent
    (dfc : List CleanRow) (dep : List DepRow)
    (cls : List ClassRow) (man : List ManualRow)
    (hdep : dep.Pairwise
      (fun d d' => (d.instName, d.uoa_id) ≠ (d'.instName, d'.uoa_id)))
    (hcls : cls.Pairwise (fun k k' => k.Q28 ≠ k'.Q28))
    (hman : man.Pairwise (fun m m' => m.Q3 ≠ m'.Q3)) :
    (buildMergedTable dfc dep cls man).length = dfc.length ∧
    ∀ c ∈ dfc,
      (∀ d ∈ dep, ¬(some d.instName = c.Q3 ∧ some d.uoa_id = c.Q8_uoa)) →
      (∀ k ∈ cls, ¬ some k.Q28 = c.PIPD) →
      (∀ m ∈ man, ¬ some m.Q3 = c.Q3) →
      (⟨c, none, none, none,
        if c.Q1 = ("Other") then some 0 else none,
        if c.Q1 = ("Other") then some 0 else none⟩ : MergedRow)
        ∈ buildMergedTable dfc dep cls man := by
  constructor
  · rw [buildMergedTable, List.length_map]
    rw [leftMerge_length_of_unique _ _ _ man
      (hman.imp (fun h he => h (Option.some.inj he)))]
    rw [leftMerge_length_of_unique _ _ _ cls
      (hcls.imp (fun h he => h (Option.some.inj he)))]
    exact leftMerge_length_of_unique _ _ dfc dep
      (hdep.imp (fun h he => h (by
        exact Prod.ext (Option.some.inj (congrArg Prod.fst he))
          (Option.some.inj (congrArg Prod.snd he)))))
  · intro c hc hnd hnk hnm
    have h1 : (c, (none : Option DepRow)) ∈
        leftMerge (fun c => (c.Q3, c.Q8_uoa))
          (fun d => (some d.instName, some d.uoa_id)) dfc dep :=
      leftMerge_mem_unmatched _ _ dfc dep c hc (fun d hd he =>
        hnd d hd ⟨congrArg Prod.fst he, congrArg Prod.snd he⟩)
    have h2 : ((c, (none : Option DepRow)), (none : Option ClassRow)) ∈
        leftMerge (fun p => p.1.PIPD) (fun k => some k.Q28)
          (leftMerge (fun c => (c.Q3, c.Q8_uoa))
            (fun d => (some d.instName, some d.uoa_id)) dfc dep) cls :=
      leftMerge_mem_unmatched _ _ _ cls (c, none) h1 (fun k hk => hnk k hk)
    have h3 : (((c, (none : Option DepRow)), (none : Option ClassRow)),
        (none : Option ManualRow)) ∈
        leftMerge (fun p => p.1.1.Q3) (fun m => some m.Q3)
          (leftMerge (fun p => p.1.PIPD) (fun k => some k.Q28)
            (leftMerge (fun c => (c.Q3, c.Q8_uoa))
              (fun d => (some d.instName, some d.uoa_id)) dfc dep) cls) man :=
      leftMerge_mem_unmatched _ _ _ man ((c, none), none) h2
        (fun m hm => hnm m hm)
    exact List.mem_map.mpr ⟨_, h3, rfl⟩

/-- Closed witness for C1 as amended, on one respondent matching nothing
in three one-row lookup tables with distinct keys. -/
theorem merged_table_one_row_per_respondent_witness :
    (buildMergedTable [⟨("Academic"), some ("Uni"), some 4, none⟩]
        [⟨("Elsewhere"), 3, some 1⟩] [⟨7, ("cat")⟩] [⟨("Elsewhere"), 0, 1⟩]).length
      = ([⟨("Academic"), some ("Uni"), some 4, none⟩] : List CleanRow).length ∧
    ∀ c ∈ ([⟨("Academic"), some ("Uni"), some 4, none⟩] : List CleanRow),
      (∀ d ∈ ([⟨("Elsewhere"), 3, some 1⟩] : List DepRow),
        ¬(some d.instName = c.Q3 ∧ some d.uoa_id = c.Q8_uoa)) →
      (∀ k ∈ ([⟨7, ("cat")⟩] : List ClassRow), ¬ some k.Q28 = c.PIPD) →
      (∀ m ∈ ([⟨("Elsewhere"), 0, 1⟩] : List ManualRow), ¬ some m.Q3 = c.Q3) →
      (⟨c, none, none, none,
        if c.Q1 = ("Other") then some 0 else none,
        if c.Q1 = ("Other") then some 0 else none⟩ : MergedRow)
        ∈ buildMergedTable [⟨("Academic"), some ("Uni"), some 4, none⟩]
            [⟨("Elsewhere"), 3, some 1⟩] [⟨7, ("cat")⟩] [⟨("Elsewhere"), 0, 1⟩] :=
  merged_table_one_row_per_respondent
    [⟨("Academic"), some ("Uni"), some 4, none⟩]
    [⟨("Elsewhere"), 3, some 1⟩] [⟨7, ("cat")⟩] [⟨("Elsewhere"), 0, 1⟩]
    (List.pairwise_singleton _ _) (List.pairwise_singleton _ _)
    (List.pairwise_singleton _ _)

/-- C4: the zero-forcing of the two institution-type flags on lines 493
and 494 tests the column Q1, the collapsed multi-part field, not the
self-reported institution column Q3.  A respondent whose institution Q3 is
Other but whose Q1 field is not keeps null flags instead of zero, and a
respondent whose Q1 field is Other has the flags forced to zero even when
a real institution was looked up successfully. -/
theorem other_institution_flags_bug :
    buildMergedTable [⟨("Academic"), some ("Other"), none, none⟩] [] [] []
      = [⟨⟨("Academic"), some ("Other"), none, none⟩,
          none, none, none, none, none⟩] ∧
    ¬ (none : Option Int) = some 0 ∧
    buildMergedTable [⟨("Other"), some ("Leeds"), none, none⟩] [] []
        [⟨("Leeds"), 1, 1⟩]
      = [⟨⟨("Other"), some ("Leeds"), none, none⟩,
          none, none, some ⟨("Leeds"), 1, 1⟩, some 0, some 0⟩] := by
  exact ⟨rfl, by decide, rfl⟩
